import Mathlib

/-!
Verification of the framed binary protocol layer and the state-synchronization
engine of the fridge/Domoticz bridge (`domoticz_fridge_control.py`).

Bytes are modelled as natural numbers; byte strings as `List Nat`.  Claims add
the hypothesis that list elements are `≤ 255` where the Python `bytes` type
enforces it.
-/

set_option autoImplicit false

namespace Kylbox

/-- Embedding of `create_packet` (domoticz_fridge_control.py, lines 32-42).
`data` is command byte plus data payload.  The length byte is
`len(data) + 2`; the checksum is `sum(pkt) & 0xFFFF` over header, length byte
and `data`, appended big-endian (`struct.pack('>H', csum)`).
The Python `struct.pack('B', ...)` call additionally raises when
`len(data) + 2 > 255`; callers in the claims always satisfy
`len(data) + 2 ≤ 255`, which the theorems carry as a hypothesis. -/
def create_packet (data : List Nat) : List Nat :=
  let length_byte_value := data.length + 2
  let pkt := 0xFE :: 0xFE :: length_byte_value :: data
  let csum := pkt.sum % 65536
  pkt ++ [csum / 256, csum % 256]

/-- Embedding of `parse_frame` (domoticz_fridge_control.py, lines 44-56).
`data[2]` and `data[3]` are indexed without bounds checks in Python and raise
`IndexError` on inputs shorter than 4 bytes; that exception is modelled as
`none`.  The payload slice `data[4 : 4 + payload_len]` never raises: Python
slicing truncates silently, which `List.take` reproduces exactly. -/
def parse_frame (data : List Nat) : Option (Nat × List Nat) :=
  match data.get? 2, data.get? 3 with
  | some lenByte, some cmd =>
    let cmd_plus_payload_len : Int := (lenByte : Int) - 2
    let payload_len : Int := cmd_plus_payload_len - 1
    let payload : List Nat :=
      if 0 < payload_len then (data.drop 4).take payload_len.toNat else []
    some (cmd, payload)
  | _, _ => none

theorem parse_frame_cons (a b L c : Nat) (rest : List Nat) :
    parse_frame (a :: b :: L :: c :: rest) =
      some (c, if 0 < (L : Int) - 2 - 1
               then rest.take ((L : Int) - 2 - 1).toNat else []) := rfl

example : parse_frame (create_packet [0x05, 0x04]) = some (0x05, [0x04]) := by decide
example : parse_frame (create_packet [0x01]) = some (0x01, []) := by decide
example : parse_frame [0xFE, 0xFE, 0x20, 0x01] = some (0x01, []) := by decide
example : parse_frame [0xFE, 0xFE, 0x03] = none := by decide

theorem create_packet_cons (c : Nat) (p : List Nat) :
    ∃ x y : Nat,
      create_packet (c :: p) = 254 :: 254 :: (p.length + 1 + 2) :: c :: (p ++ [x, y]) :=
  ⟨_, _, rfl⟩

/-- C1: For every command byte and every payload with `len(payload) ≤ 252`,
decoding the frame produced by encoding returns exactly the original pair:
`parse_frame (create_packet (bytes([command]) + payload)) = (command, payload)`. -/
theorem frame_roundtrip (command : Nat) (payload : List Nat)
    (hcmd : command ≤ 255) (hbytes : ∀ b ∈ payload, b ≤ 255)
    (hlen : payload.length ≤ 252) :
    parse_frame (create_packet (command :: payload)) = some (command, payload) := by
  obtain ⟨x, y, hpkt⟩ := create_packet_cons command payload
  rw [hpkt, parse_frame_cons]
  by_cases hp : payload = []
  · subst hp; simp
  · have hlp : 0 < payload.length := List.length_pos.mpr hp
    have h1 : (0 : Int) < ((payload.length + 1 + 2 : Nat) : Int) - 2 - 1 := by omega
    have h2 : (((payload.length + 1 + 2 : Nat) : Int) - 2 - 1).toNat = payload.length := by
      omega
    rw [if_pos h1, h2, List.take_left' rfl]

/-- C1 witness. -/
theorem frame_roundtrip_witness :
    (1 : Nat) ≤ 255 ∧
    parse_frame (create_packet (1 :: [2, 3])) = some (1, [2, 3]) :=
  ⟨by decide, frame_roundtrip 1 [2, 3] (by decide) (by decide) (by decide)⟩

/-- C2: For every command byte and payload with `len(payload) ≤ 252`, the
encoded frame is bit-exact: two magic bytes `0xFE 0xFE`, then the length byte
`1 + len(payload) + 2`, then the command byte and payload, and finally the sum
of all preceding bytes modulo 65536 encoded big-endian (high byte first). -/
theorem create_packet_format (command : Nat) (payload : List Nat)
    (hcmd : command ≤ 255) (hbytes : ∀ b ∈ payload, b ≤ 255)
    (hlen : payload.length ≤ 252) :
    create_packet (command :: payload) =
      (0xFE :: 0xFE :: (1 + payload.length + 2) :: command :: payload) ++
        [((0xFE :: 0xFE :: (1 + payload.length + 2) :: command :: payload).sum % 65536) / 256,
         ((0xFE :: 0xFE :: (1 + payload.length + 2) :: command :: payload).sum % 65536) % 256] := by
  have hL : (command :: payload).length + 2 = 1 + payload.length + 2 := by
    simp [Nat.add_comm]
  simp only [create_packet]
  rw [hL]

/-- C2 witness. -/
theorem create_packet_format_witness :
    ([4] : List Nat).length ≤ 252 ∧
    create_packet (5 :: [4]) =
      (0xFE :: 0xFE :: (1 + ([4] : List Nat).length + 2) :: 5 :: [4]) ++
        [((0xFE :: 0xFE :: (1 + ([4] : List Nat).length + 2) :: 5 :: [4]).sum % 65536) / 256,
         ((0xFE :: 0xFE :: (1 + ([4] : List Nat).length + 2) :: 5 :: [4]).sum % 65536) % 256] :=
  ⟨by decide, create_packet_format 5 [4] (by decide) (by decide) (by decide)⟩

/-- C3 counterexample: the input `FE FE 20 01` has 4 bytes but its declared
length byte `0x20` announces `0x20 - 3 = 29` payload bytes, none of which are
present.  The claim requires `parse_frame` to fail with a truncation error
here; instead it succeeds, returning command `0x01` with a silently truncated
(empty) payload. -/
theorem parse_frame_truncation_counterexample :
    (([0xFE, 0xFE, 0x20, 0x01] : List Nat).length = 4) ∧
    parse_frame [0xFE, 0xFE, 0x20, 0x01] = some (0x01, []) := by decide

theorem take_append_left {α : Type} (l₁ l₂ : List α) {n : Nat} (h : n ≤ l₁.length) :
    (l₁ ++ l₂).take n = l₁.take n := by
  induction l₁ generalizing n with
  | nil =>
    have : n = 0 := by simpa using h
    simp [this]
  | cons a t ih =>
    cases n with
    | zero => simp
    | succ m =>
      simp only [List.cons_append, List.take_cons_succ]
      rw [ih (by simpa using h)]

/-- C3 amended: `parse_frame` raises (modelled `none`) exactly when the input
has fewer than 4 bytes; when the declared length implies more bytes than are
present it still succeeds, with the payload silently truncated to the bytes
available; and bytes beyond the declared payload region — in particular the
two trailing checksum bytes — are never inspected: appending anything after a
prefix that already contains its declared payload leaves the result unchanged. -/
theorem parse_frame_truncation (data pre s : List Nat) :
    (parse_frame data = none ↔ data.length < 4) ∧
    (4 ≤ pre.length → pre.getD 2 0 + 1 ≤ pre.length →
      parse_frame (pre ++ s) = parse_frame pre) := by
  constructor
  · match data with
    | [] => simp [parse_frame]
    | [a] => simp [parse_frame]
    | [a, b] => simp [parse_frame]
    | [a, b, c] => simp [parse_frame]
    | a :: b :: c :: d :: rest =>
      rw [parse_frame_cons]
      simp only [List.length_cons]
      constructor
      · intro h; exact absurd h (by simp)
      · omega
  · match pre with
    | [] => intro h; simp at h
    | [a] => intro h; simp at h
    | [a, b] => intro h; simp at h
    | [a, b, c] => intro h; simp at h
    | a :: b :: c :: d :: rest =>
      intro _ hdecl
      have hc : c + 1 ≤ rest.length + 4 := by simpa using hdecl
      simp only [List.cons_append]
      rw [parse_frame_cons, parse_frame_cons]
      by_cases hpos : (0 : Int) < (c : Int) - 2 - 1
      · rw [if_pos hpos, if_pos hpos, take_append_left]
        omega
      · rw [if_neg hpos, if_neg hpos]

/-- C3 amended witness. -/
theorem parse_frame_truncation_witness :
    (4 ≤ ([0xFE, 0xFE, 0x05, 0x01, 0x09, 0x08] : List Nat).length) ∧
    (([0xFE, 0xFE, 0x05, 0x01, 0x09, 0x08] : List Nat).getD 2 0 + 1 ≤
      ([0xFE, 0xFE, 0x05, 0x01, 0x09, 0x08] : List Nat).length) ∧
    parse_frame ([0xFE, 0xFE, 0x05, 0x01, 0x09, 0x08] ++ [0x02, 0x0B]) =
      parse_frame [0xFE, 0xFE, 0x05, 0x01, 0x09, 0x08] :=
  ⟨by decide, by decide,
   (parse_frame_truncation [] [0xFE, 0xFE, 0x05, 0x01, 0x09, 0x08] [0x02, 0x0B]).2
     (by decide) (by decide)⟩

/-- C10: `parse_frame` never validates the 2-byte magic header: two inputs of
at least 4 bytes that differ only in their first two bytes parse identically. -/
theorem magic_bytes_not_validated (a b a' b' : Nat) (rest : List Nat)
    (h : 2 ≤ rest.length) :
    parse_frame (a :: b :: rest) = parse_frame (a' :: b' :: rest) := by
  match rest with
  | [] => simp at h
  | [c] => simp at h
  | c :: d :: rest2 => rw [parse_frame_cons, parse_frame_cons]

/-- C10 witness. -/
theorem magic_bytes_not_validated_witness :
    (2 ≤ ([0x03, 0x01] : List Nat).length) ∧
    parse_frame (0x00 :: 0x00 :: [0x03, 0x01]) =
      parse_frame (0xFE :: 0xFE :: [0x03, 0x01]) :=
  ⟨by decide, magic_bytes_not_validated 0 0 0xFE 0xFE [0x03, 0x01] (by decide)⟩

/-- Signed interpretation of one byte, as produced by Python's
`struct.unpack('b', bytes([v]))[0]` (two's complement). -/
def signed8 (b : Nat) : Int := if b < 128 then (b : Int) else (b : Int) - 256

/-- The semantic reading extracted from a query response
(`notification_handler`, lines 143-148). -/
structure DeviceReading where
  target_temp : Int
  actual_temp : Int
  battery_percent : Nat
  battery_voltage : String
deriving DecidableEq

/-- Embedding of the query-response payload decoding inside
`notification_handler` (domoticz_fridge_control.py, lines 143-146): byte 14 is
the signed actual temperature, byte 4 the signed target temperature, byte 15
the battery percent, and bytes 16 and 17 are joined with a decimal point into
the voltage string.  The Python code indexes the payload inside a
`try`/`except IndexError`; a missing index is modelled as `none`. -/
def decode_query_response (payload : List Nat) : Option DeviceReading :=
  match payload.get? 14, payload.get? 4, payload.get? 15,
        payload.get? 16, payload.get? 17 with
  | some b14, some b4, some b15, some b16, some b17 =>
    some { target_temp := signed8 b4, actual_temp := signed8 b14,
           battery_percent := b15,
           battery_voltage := toString b16 ++ "." ++ toString b17 }
  | _, _, _, _, _ => none

/-- The 18-byte example payload of the claim: byte 4 = `0xFC`, byte 14 =
`0x02`, byte 15 = `0x55`, byte 16 = `0x03`, byte 17 = `0x07`. -/
def qrExample : List Nat :=
  [0, 0, 0, 0, 0xFC, 0, 0, 0, 0, 0, 0, 0, 0, 0, 0x02, 0x55, 0x03, 0x07]

theorem get?_eq_some_getD (l : List Nat) (k : Nat) (h : k < l.length) :
    l.get? k = some (l.getD k 0) := by
  rw [List.get?_eq_get h]
  simp [List.getD_eq_getElem?_getD, List.getElem?_eq_getElem h, List.get_eq_getElem]

/-- C4: decoding a query-response payload of at least 18 bytes reads byte 4 as
the signed target temperature, byte 14 as the signed actual temperature,
byte 15 as the battery percent and bytes 16/17 as the two halves of the
voltage string; the claim's concrete payload yields
`target_temp = -4, actual_temp = 2, battery_percent = 85,
battery_voltage = "3.7"`; every payload shorter than 18 bytes fails to decode
(`IndexError`, modelled `none`) and produces no reading. -/
theorem query_response_decoding (p : List Nat) :
    (decode_query_response qrExample =
      some { target_temp := -4, actual_temp := 2, battery_percent := 85,
             battery_voltage := "3.7" }) ∧
    (18 ≤ p.length →
      decode_query_response p =
        some { target_temp := signed8 (p.getD 4 0),
               actual_temp := signed8 (p.getD 14 0),
               battery_percent := p.getD 15 0,
               battery_voltage := toString (p.getD 16 0) ++ "." ++ toString (p.getD 17 0) }) ∧
    (p.length < 18 → decode_query_response p = none) := by
  refine ⟨by decide, ?_, ?_⟩
  · intro h
    unfold decode_query_response
    rw [get?_eq_some_getD p 14 (by omega), get?_eq_some_getD p 4 (by omega),
        get?_eq_some_getD p 15 (by omega), get?_eq_some_getD p 16 (by omega),
        get?_eq_some_getD p 17 (by omega)]
  · intro h
    have h17 : p[17]? = none := by
      rw [← List.get?_eq_getElem?]
      exact List.get?_eq_none.mpr (by omega)
    unfold decode_query_response
    rcases h14 : p.get? 14 with _ | v14 <;>
      rcases h4 : p.get? 4 with _ | v4 <;>
        rcases h15 : p.get? 15 with _ | v15 <;>
          rcases h16 : p.get? 16 with _ | v16 <;>
            simp [h17]

/-- C4 witness. -/
theorem query_response_decoding_witness :
    18 ≤ qrExample.length ∧
    decode_query_response qrExample =
      some { target_temp := signed8 (qrExample.getD 4 0),
             actual_temp := signed8 (qrExample.getD 14 0),
             battery_percent := qrExample.getD 15 0,
             battery_voltage := toString (qrExample.getD 16 0) ++ "." ++
               toString (qrExample.getD 17 0) } :=
  ⟨by decide, (query_response_decoding qrExample).2.1 (by decide)⟩

/-- The module-level synchronization state of domoticz_fridge_control.py
(lines 23-25): `current_known_setpoint`, `last_reported_fridge_temp`,
`last_reported_fridge_target`, all initially `None`. -/
structure SyncState where
  current_known_setpoint : Option Int
  last_reported_fridge_temp : Option Int
  last_reported_fridge_target : Option Int
deriving DecidableEq

/-- An upstream push spawned via `asyncio.create_task(update_domoticz_device ...)`:
either the temperature device (idx 62) or the setpoint device (idx 61). -/
inductive PushEvent
  | pushTemp (v : Int)
  | pushTarget (v : Int)
deriving DecidableEq

/-- Observable actions of the device-facing code: a GATT write of a frame, a
spawned upstream push, or a timed delay. -/
inductive Event
  | write (frame : List Nat)
  | push (e : PushEvent)
  | sleep (secs : Nat)
deriving DecidableEq

/-- State effect of `update_domoticz_device` (lines 59-84) completing with
outcome `httpOk`: the function performs an HTTP GET and logging only and never
assigns any of the module-level sync variables, so completion — successful or
failed — leaves the synchronization state unchanged.  The callers spawn it
with `asyncio.create_task` and never await or inspect its result. -/
def update_domoticz_device (httpOk : Bool) (s : SyncState) : SyncState := s

/-- Embedding of `notification_handler` (lines 137-169).  A query response
(`cmd == 0x01`) is decoded; on success the temperature is pushed upstream when
changed and `last_reported_fridge_temp` is assigned immediately (the push task
is merely spawned), likewise for the target, and `current_known_setpoint` is
unconditionally set to the reported target.  The configured-idx guards
(`"62" != "IDX_TEMP"`, `"61" != "IDX_SETPOINT"`) are statically true and
inlined.  A decode failure (`IndexError`) or any other command leaves the
state unchanged; frames shorter than 4 bytes raise inside `parse_frame`
before any state access. -/
def notification_handler (s : SyncState) (data : List Nat) :
    SyncState × List PushEvent :=
  match parse_frame data with
  | none => (s, [])
  | some (cmd, payload) =>
    if cmd = 0x01 then
      match decode_query_response payload with
      | none => (s, [])
      | some r =>
        let step1 : SyncState × List PushEvent :=
          if s.last_reported_fridge_temp ≠ some r.actual_temp then
            ({ s with last_reported_fridge_temp := some r.actual_temp },
             [PushEvent.pushTemp r.actual_temp])
          else (s, [])
        let step2 : SyncState × List PushEvent :=
          if step1.1.last_reported_fridge_target ≠ some r.target_temp then
            ({ step1.1 with last_reported_fridge_target := some r.target_temp },
             step1.2 ++ [PushEvent.pushTarget r.target_temp])
          else step1
        ({ step2.1 with current_known_setpoint := some r.target_temp }, step2.2)
    else (s, [])

theorem notification_handler_query (s : SyncState) (data payload : List Nat)
    (r : DeviceReading) (hp : parse_frame data = some (0x01, payload))
    (hd : decode_query_response payload = some r) :
    notification_handler s data =
      (⟨some r.target_temp, some r.actual_temp, some r.target_temp⟩,
       (if s.last_reported_fridge_temp ≠ some r.actual_temp
        then [PushEvent.pushTemp r.actual_temp] else []) ++
       (if s.last_reported_fridge_target ≠ some r.target_temp
        then [PushEvent.pushTarget r.target_temp] else [])) := by
  obtain ⟨ks, lt, lg⟩ := s
  by_cases h1 : lt = some r.actual_temp <;> by_cases h2 : lg = some r.target_temp <;>
    simp [notification_handler, hp, hd, h1, h2]

def isTempPush : PushEvent → Bool
  | PushEvent.pushTemp _ => true
  | PushEvent.pushTarget _ => false

def isTargetPush : PushEvent → Bool
  | PushEvent.pushTemp _ => false
  | PushEvent.pushTarget _ => true

/-- C6: processing the same frame twice in a row pushes each field at most
once: the first receipt pushes at most one temperature and one target update,
and the second receipt — the state now holding the reading's values — spawns
zero pushes and leaves the state exactly as it was. -/
theorem query_response_idempotent (s : SyncState) (data : List Nat) :
    notification_handler (notification_handler s data).1 data
        = ((notification_handler s data).1, []) ∧
    (notification_handler s data).2.countP isTempPush ≤ 1 ∧
    (notification_handler s data).2.countP isTargetPush ≤ 1 := by
  rcases hp : parse_frame data with _ | ⟨cmd, payload⟩
  · simp [notification_handler, hp]
  · by_cases hc : cmd = 0x01
    · subst hc
      rcases hd : decode_query_response payload with _ | r
      · simp [notification_handler, hp, hd]
      · rw [notification_handler_query s data payload r hp hd,
            notification_handler_query _ data payload r hp hd]
        refine ⟨by simp, ?_, ?_⟩ <;>
          by_cases h1 : s.last_reported_fridge_temp = some r.actual_temp <;>
            by_cases h2 : s.last_reported_fridge_target = some r.target_temp <;>
              simp [h1, h2, isTempPush, isTargetPush]
    · simp [notification_handler, hp, hc]

/-- The full query-response frame carrying the claim's example payload. -/
def qrFrame : List Nat := create_packet (0x01 :: qrExample)

/-- C7 counterexample: starting from the all-unset state, processing a valid
query response spawns pushes and assigns `last_reported_fridge_temp := 2` in
the same synchronous step — before any spawned push has run, and the
assignment survives even when the push later fails
(`update_domoticz_device false` leaves the state as is).  The claim that
`last_reported_*` keep their prior values until a push completes successfully
is therefore false. -/
theorem push_gating_counterexample :
    ((⟨none, none, none⟩ : SyncState).last_reported_fridge_temp = none) ∧
    (notification_handler ⟨none, none, none⟩ qrFrame).2 ≠ [] ∧
    (notification_handler ⟨none, none, none⟩ qrFrame).1.last_reported_fridge_temp
      = some 2 ∧
    update_domoticz_device false (notification_handler ⟨none, none, none⟩ qrFrame).1
      = (notification_handler ⟨none, none, none⟩ qrFrame).1 := by decide

/-- Embedding of `set_temperature` (lines 189-222).  Inputs: whether the
client is connected, the success of the i-th GATT write (`wOk`), the current
sync state and the requested temperature.  On a successful SetTarget write
(`wOk 0`), `current_known_setpoint` is assigned optimistically, the setpoint
is pushed upstream when changed (fire-and-forget, `last_reported_fridge_target`
assigned at spawn), then after a 1 s delay a Query frame is written (`wOk 1`)
and a further 2 s delay follows.  A `BleakError` on either write is caught at
the end of the `try` block, aborting the remainder of the sequence only.
A `temp` outside the signed-byte range would make `struct.pack('b', temp)`
raise before any write or state change; that abort is modelled as `(s, [])`. -/
def set_temperature (connected : Bool) ( wOk : Nat → Bool) (s : SyncState)
    (temp : Int) : SyncState × List Event :=
  if connected then
    if temp < -128 ∨ 127 < temp then (s, [])
    else
      let setFrame := create_packet [0x05, (temp % 256).toNat]
      if wOk 0 then
        let s1 : SyncState := { s with current_known_setpoint := some temp }
        let step : SyncState × List Event :=
          if s1.last_reported_fridge_target ≠ some temp then
            ({ s1 with last_reported_fridge_target := some temp },
             [Event.push (PushEvent.pushTarget temp)])
          else (s1, [])
        let queryFrame := create_packet [0x01]
        if wOk 1 then
          (step.1, Event.write setFrame :: step.2 ++
            [Event.sleep 1, Event.write queryFrame, Event.sleep 2])
        else
          (step.1, Event.write setFrame :: step.2 ++
            [Event.sleep 1, Event.write queryFrame])
      else (s, [Event.write setFrame])
  else (s, [])

/-- C7 amended: the `last_reported_*` fields are assigned at the moment the
upstream push task is spawned — synchronously, before the push has run and
regardless of its eventual outcome (`update_domoticz_device` never alters the
sync state on completion) — and a push is spawned only when the value differs
from the last reported one (redundant pushes are gated). -/
theorem push_initiation_semantics (s : SyncState) (data : List Nat) (ok : Bool)
    (v temp : Int) ( wOk : Nat → Bool) :
    (update_domoticz_device ok s = s) ∧
    (PushEvent.pushTemp v ∈ (notification_handler s data).2 →
      s.last_reported_fridge_temp ≠ some v ∧
      (notification_handler s data).1.last_reported_fridge_temp = some v) ∧
    (PushEvent.pushTarget v ∈ (notification_handler s data).2 →
      s.last_reported_fridge_target ≠ some v ∧
      (notification_handler s data).1.last_reported_fridge_target = some v) ∧
    (Event.push (PushEvent.pushTarget v) ∈ (set_temperature true wOk s temp).2 →
      v = temp ∧ s.last_reported_fridge_target ≠ some temp ∧
      (set_temperature true wOk s temp).1.last_reported_fridge_target = some temp) := by
  refine ⟨rfl, ?_, ?_, ?_⟩
  · rcases hp : parse_frame data with _ | ⟨cmd, payload⟩
    · simp [notification_handler, hp]
    · by_cases hc : cmd = 0x01
      · subst hc
        rcases hd : decode_query_response payload with _ | r
        · simp [notification_handler, hp, hd]
        · rw [notification_handler_query s data payload r hp hd]
          by_cases h1 : s.last_reported_fridge_temp = some r.actual_temp <;>
            by_cases h2 : s.last_reported_fridge_target = some r.target_temp <;>
              simp [h1, h2] <;> rintro rfl <;> simp [h1]
      · simp [notification_handler, hp, hc]
  · rcases hp : parse_frame data with _ | ⟨cmd, payload⟩
    · simp [notification_handler, hp]
    · by_cases hc : cmd = 0x01
      · subst hc
        rcases hd : decode_query_response payload with _ | r
        · simp [notification_handler, hp, hd]
        · rw [notification_handler_query s data payload r hp hd]
          by_cases h1 : s.last_reported_fridge_temp = some r.actual_temp <;>
            by_cases h2 : s.last_reported_fridge_target = some r.target_temp <;>
              simp [h1, h2] <;> rintro rfl <;> simp [h2]
      · simp [notification_handler, hp, hc]
  · by_cases hr : temp < -128 ∨ 127 < temp
    · simp [set_temperature, hr]
    · by_cases h0 : wOk 0
      · by_cases hg : s.last_reported_fridge_target = some temp <;>
          by_cases h1 : wOk 1 <;>
            simp [set_temperature, hr, h0, hg, h1]
      · simp [set_temperature, hr, h0]

/-- C7 amended witness. -/
theorem push_initiation_semantics_witness :
    PushEvent.pushTemp 2 ∈ (notification_handler ⟨none, none, none⟩ qrFrame).2 ∧
    ((⟨none, none, none⟩ : SyncState).last_reported_fridge_temp ≠ some 2 ∧
     (notification_handler ⟨none, none, none⟩ qrFrame).1.last_reported_fridge_temp
       = some 2) :=
  ⟨by decide,
   (push_initiation_semantics ⟨none, none, none⟩ qrFrame true 2 0
      (fun _ => true)).2.1 (by decide)⟩

/-- C8 counterexample: with `known_device_setpoint = 4`, a set-temperature
sequence to 6 whose SetTarget write succeeds but whose follow-up Query write
raises (`wOk 1 = false`) still ends with `current_known_setpoint = 6`: a
failing transport write inside the sequence does not leave the setpoint
unchanged, contradicting the claim. -/
theorem set_sequence_counterexample :
    ((fun n : Nat => n == 0) 1 = false) ∧
    Event.write (create_packet [0x01]) ∈
      (set_temperature true (fun n => n == 0) ⟨some 4, none, some 4⟩ 6).2 ∧
    (set_temperature true (fun n => n == 0)
        ⟨some 4, none, some 4⟩ 6).1.current_known_setpoint = some 6 := by decide

/-- C8 amended: only a failure of the SetTarget write itself (`wOk 0 = false`)
aborts the sequence with `known_device_setpoint` unchanged (nothing but that
one attempted write happens); once the SetTarget write succeeds,
`current_known_setpoint` is optimistically set to the requested value even if
the follow-up Query write fails. -/
theorem set_sequence_failure_semantics ( wOk : Nat → Bool) (s : SyncState)
    (temp : Int) (hlo : -128 ≤ temp) (hhi : temp ≤ 127) :
    ( wOk 0 = false →
      set_temperature true wOk s temp =
        (s, [Event.write (create_packet [0x05, (temp % 256).toNat])])) ∧
    ( wOk 0 = true →
      (set_temperature true wOk s temp).1.current_known_setpoint = some temp) := by
  have hr : ¬(temp < -128 ∨ 127 < temp) := by omega
  constructor
  · intro h0
    simp [set_temperature, hr, h0]
  · intro h0
    by_cases hg : s.last_reported_fridge_target = some temp <;>
      by_cases h1 : wOk 1 <;>
        simp [set_temperature, hr, h0, hg, h1]

/-- C8 amended witness. -/
theorem set_sequence_failure_semantics_witness :
    ((fun _ : Nat => false) 0 = false) ∧
    set_temperature true (fun _ => false) ⟨some 4, none, some 4⟩ 6 =
      (⟨some 4, none, some 4⟩,
       [Event.write (create_packet [0x05, ((6 : Int) % 256).toNat])]) :=
  ⟨rfl, (set_sequence_failure_semantics (fun _ => false) ⟨some 4, none, some 4⟩ 6
      (by decide) (by decide)).1 rfl⟩

/-- Python's one-argument `round` (banker's rounding, ties to even), applied
by `poll_domoticz_for_setpoint_changes` (line 242) to the float pulled from
Domoticz.  Floats are modelled as exact rationals; the claims use only `4.4`
and `5.6`, far from any tie. -/
def pyRound (q : ℚ) : Int :=
  let f := q.floor
  let frac := q - (f : ℚ)
  if frac < 1/2 then f
  else if 1/2 < frac then f + 1
  else if f % 2 = 0 then f else f + 1

theorem pyRound_22_5 : pyRound (22/5) = 4 := by
  have hf : (22/5 : ℚ).floor = 4 := by norm_num [Rat.floor]
  simp only [pyRound]
  rw [hf]
  norm_num

theorem pyRound_28_5 : pyRound (28/5) = 6 := by
  have hf : (28/5 : ℚ).floor = 5 := by norm_num [Rat.floor]
  simp only [pyRound]
  rw [hf]
  norm_num

example : pyRound (3/2) = 2 := by
  have hf : (3/2 : ℚ).floor = 1 := by norm_num [Rat.floor]
  simp only [pyRound]
  rw [hf]
  norm_num

/-- One iteration of the `poll_domoticz_for_setpoint_changes` loop body
(lines 228-246), after its initial sleep.  The tick is skipped when the client
is not connected or the setpoint idx is unconfigured (statically configured to
`"61"` in the source; kept as the parameter `idxConfigured`), or when the pull
fails (`pull = none`).  Otherwise the pulled value is rounded and, if
`current_known_setpoint` is unset or differs, a set-temperature sequence is
issued. -/
def poll_tick (connected idxConfigured : Bool) (pull : Option ℚ)
    ( wOk : Nat → Bool) (s : SyncState) : SyncState × List Event :=
  if ¬connected then (s, [])
  else if ¬idxConfigured then (s, [])
  else
    match pull with
    | none => (s, [])
    | some q =>
      let new_target_temp := pyRound q
      if s.current_known_setpoint = none ∨
          some new_target_temp ≠ s.current_known_setpoint then
        set_temperature connected wOk s new_target_temp
      else (s, [])

/-- Number of GATT writes of a given frame among a list of events. -/
def countWrites (frame : List Nat) (evs : List Event) : Nat :=
  (evs.filter (fun e => decide (e = Event.write frame))).length

/-- C5 counterexample: with `known_device_setpoint = 4` and a pull of `5.6`
(rounds to 6), the first tick issues SetTarget 6; the very next tick — with
the same pull and no `QueryResponse` processed in between — issues nothing and
changes nothing, because `current_known_setpoint` was already optimistically
set to 6 by the successful write.  The claim that SetTarget is re-issued on
every following tick until a `QueryResponse` confirms `target_temp = 6` is
therefore false. -/
theorem poll_tick_56_first :
    poll_tick true true (some (28/5)) (fun _ => true) ⟨some 4, none, none⟩ =
      (⟨some 6, none, some 6⟩,
       [Event.write (create_packet [0x05, 6]), Event.push (PushEvent.pushTarget 6),
        Event.sleep 1, Event.write (create_packet [0x01]), Event.sleep 2]) := by
  have h56 := pyRound_28_5
  have h6 : ((6 : Int) % 256).toNat = 6 := by decide
  norm_num [poll_tick, set_temperature, h56, h6]
  simp

theorem reconciliation_counterexample :
    Event.write (create_packet [0x05, 6]) ∈
      (poll_tick true true (some (28/5)) (fun _ => true) ⟨some 4, none, none⟩).2 ∧
    poll_tick true true (some (28/5)) (fun _ => true)
        (poll_tick true true (some (28/5)) (fun _ => true) ⟨some 4, none, none⟩).1
      = ((poll_tick true true (some (28/5)) (fun _ => true)
            ⟨some 4, none, none⟩).1, []) := by
  have h56 := pyRound_28_5
  rw [poll_tick_56_first]
  constructor
  · simp
  · norm_num [poll_tick, h56]
    simp

/-- C5 amended: with `known_device_setpoint = 4`, a pull of `4.4` (rounds
to 4) issues no set-temperature sequence and leaves the state unchanged; a
pull of `5.6` (rounds to 6) issues SetTarget 6 exactly once on that tick and —
when the write succeeds — optimistically sets `current_known_setpoint` to 6,
after which further ticks with the same pull issue nothing (no
`QueryResponse` is required); only while the SetTarget write keeps failing
does the known setpoint stay 4, so the next tick re-issues the command. -/
theorem reconciliation_semantics (lt lg : Option Int) ( wOk : Nat → Bool)
    (s' : SyncState) :
    (poll_tick true true (some (22/5)) wOk ⟨some 4, lt, lg⟩ =
      (⟨some 4, lt, lg⟩, [])) ∧
    ( wOk 0 = true →
      countWrites (create_packet [0x05, 6])
          (poll_tick true true (some (28/5)) wOk ⟨some 4, lt, lg⟩).2 = 1 ∧
      (poll_tick true true (some (28/5)) wOk ⟨some 4, lt, lg⟩).1.current_known_setpoint
        = some 6) ∧
    (s'.current_known_setpoint = some 6 →
      poll_tick true true (some (28/5)) wOk s' = (s', [])) ∧
    ( wOk 0 = false →
      poll_tick true true (some (28/5)) wOk ⟨some 4, lt, lg⟩ =
        (⟨some 4, lt, lg⟩, [Event.write (create_packet [0x05, 6])])) := by
  have h44 := pyRound_22_5
  have h56 := pyRound_28_5
  have h6 : ((6 : Int) % 256).toNat = 6 := by decide
  have hr : ¬((6 : Int) < -128 ∨ 127 < (6 : Int)) := by omega
  have hne : ¬ create_packet [1] = create_packet [5, 6] := by decide
  refine ⟨?_, ?_, ?_, ?_⟩
  · simp [poll_tick, h44]
  · intro h0
    by_cases hg : lg = some 6 <;> by_cases h1 : wOk 1 <;>
      simp [poll_tick, set_temperature, countWrites, h56, h6, hr, h0, hg, h1, hne]
  · obtain ⟨ks, lt', lg'⟩ := s'
    intro hks
    simp only at hks
    subst hks
    simp [poll_tick, h56]
  · intro h0
    simp [poll_tick, set_temperature, h56, h6, hr, h0]

/-- C5 amended witness. -/
theorem reconciliation_semantics_witness :
    ((fun _ : Nat => true) 0 = true) ∧
    countWrites (create_packet [0x05, 6])
      (poll_tick true true (some (28/5)) (fun _ => true) ⟨some 4, none, none⟩).2
      = 1 :=
  ⟨rfl, ((reconciliation_semantics none none (fun _ => true)
      ⟨some 6, none, none⟩).2.1 rfl).1⟩

/-- Observable actions of `connect_with_retry`: one connect attempt, or the
fixed 5-second inter-attempt delay. -/
inductive RetryEvent
  | attempt (n : Nat)
  | sleep (secs : Nat)
deriving DecidableEq

/-- Loop body of `connect_with_retry` (lines 172-187).  `attempt` is the
current 0-based attempt index; `remaining` is `max_attempts - attempt`,
carried as structural-recursion fuel.  A successful attempt returns its
connection (modelled as the attempt index) immediately; a failed attempt
sleeps 5 seconds and retries unless it was the last one
(`attempt = max_attempts - 1`), in which case the function returns `None`
(the exhausted outcome). -/
def connect_loop ( cOk : Nat → Bool) (max_attempts attempt remaining : Nat) :
    List RetryEvent × Option Nat :=
  match remaining with
  | 0 => ([], none)
  | r + 1 =>
    if cOk attempt then ([RetryEvent.attempt attempt], some attempt)
    else if attempt < max_attempts - 1 then
      let rest := connect_loop cOk max_attempts (attempt + 1) r
      (RetryEvent.attempt attempt :: RetryEvent.sleep 5 :: rest.1, rest.2)
    else ([RetryEvent.attempt attempt], none)

/-- Embedding of `connect_with_retry` (lines 172-187): the for-loop over
`range(max_attempts)` starting at attempt 0. -/
def connect_with_retry ( cOk : Nat → Bool) (max_attempts : Nat) :
    List RetryEvent × Option Nat :=
  connect_loop cOk max_attempts 0 max_attempts

/-- C9: with `max_attempts = 3` and a transport that always fails to connect,
exactly 3 attempts are made, with one fixed 5-second delay between
consecutive attempts and none after the last, and the final result is the
exhausted outcome (`None`, which `main` treats as fatal); if some attempt can
succeed, the connection of the first successful attempt is returned. -/
theorem connect_retry_semantics ( cOk : Nat → Bool) (k : Nat) :
    (connect_with_retry (fun _ => false) 3 =
      ([RetryEvent.attempt 0, RetryEvent.sleep 5, RetryEvent.attempt 1,
        RetryEvent.sleep 5, RetryEvent.attempt 2], none)) ∧
    ((∀ j, j < 3 → cOk j = false) → connect_with_retry cOk 3 =
      ([RetryEvent.attempt 0, RetryEvent.sleep 5, RetryEvent.attempt 1,
        RetryEvent.sleep 5, RetryEvent.attempt 2], none)) ∧
    (k < 3 → cOk k = true → (∀ j, j < k → cOk j = false) →
      (connect_with_retry cOk 3).2 = some k) := by
  refine ⟨by decide, ?_, ?_⟩
  · intro h
    have h0 := h 0 (by omega)
    have h1 := h 1 (by omega)
    have h2 := h 2 (by omega)
    simp [connect_with_retry, connect_loop, h0, h1, h2]
  · intro hk htrue hprev
    interval_cases k
    · simp [connect_with_retry, connect_loop, htrue]
    · have h0 := hprev 0 (by omega)
      simp [connect_with_retry, connect_loop, h0, htrue]
    · have h0 := hprev 0 (by omega)
      have h1 := hprev 1 (by omega)
      simp [connect_with_retry, connect_loop, h0, h1, htrue]

/-- C9 witness. -/
theorem connect_retry_semantics_witness :
    (1 < 3) ∧ ((fun n : Nat => n == 1) 1 = true) ∧
    (connect_with_retry (fun n => n == 1) 3).2 = some 1 :=
  ⟨by decide, rfl,
   (connect_retry_semantics (fun n => n == 1) 1).2.2 (by decide) rfl (by decide)⟩

end Kylbox
